import Mathlib

/-!
Shallow embedding of the AvatarChat React component
(src/unnamed/part_000, the full variant with voice features; the
transcription handler of src/unnamed/part_001 is textually identical)
and of the session API helper (src/src/utils/api.js).

The component's reactive state hooks become fields of `AppState`;
`setX(v)` becomes a record update; `setMessages(prev => [...prev, m])`
becomes `messages := messages ++ [m]`.  Calls to `Date.now()` /
`new Date()` are modelled by an explicit `now : Nat` argument, and
asynchronous externals (the session API response, microphone permission,
transport send success) by explicit arguments, so every handler is a
pure state-transition function.  React keys are modelled as `String`
(React stringifies numeric keys), with the numeric `Date.now()` keys
rendered via `toString`.  The mojibake prefixes on some message texts
reproduce the literal bytes of the source file.
-/

namespace AvatarChat

/-- A chat log entry: `{ sender, text, timestamp, key }` as built by the
component's `setMessages` calls. -/
structure Message where
  sender : String
  text : String
  timestamp : Nat
  key : String
  deriving DecidableEq, Repr

/-- The component's reactive state plus the refs that hold observable
resources: `roomOpen` models `roomRef.current !== null`, `recorderActive`
models `mediaRecorderRef.current !== null`, `micHeldVoice` models
`localAudioTrackRef.current !== null`. -/
structure AppState where
  messages : List Message
  input : String
  isConnected : Bool
  isLoading : Bool
  isAvatarSpeaking : Bool
  isRecording : Bool
  isVoiceModeEnabled : Bool
  roomOpen : Bool
  recorderActive : Bool
  micHeldVoice : Bool
  deriving DecidableEq, Repr

/-- The initial state of the component (all `useState` initialisers and
null refs). -/
def initialState : AppState :=
  { messages := []
    input := ""
    isConnected := false
    isLoading := false
    isAvatarSpeaking := false
    isRecording := false
    isVoiceModeEnabled := false
    roomOpen := false
    recorderActive := false
    micHeldVoice := false }

/-- The spec's connection states.  The component has no explicit state
variable; the spec derives it.  `Disconnected` is observationally the
same as `Idle` in the code (both are `isConnected = false` with no open
room), so it is folded into `Idle` here. -/
inductive ConnState where
  | Idle
  | Connecting
  | Connected
  deriving DecidableEq, Repr

/-- Derived connection state: `Connected` iff `isConnected`;
`Connecting` iff a room object exists (transport connect initiated) but
the `Connected` event has not fired; `Idle` otherwise. -/
def connectionState (st : AppState) : ConnState :=
  if st.isConnected then ConnState.Connected
  else if st.roomOpen then ConnState.Connecting
  else ConnState.Idle

/-- Drop leading whitespace characters from a character list. -/
def dropLeadingWs : List Char → List Char
  | [] => []
  | c :: cs => if c.isWhitespace then dropLeadingWs cs else c :: cs

/-- JavaScript `String.prototype.trim`: remove leading and trailing
whitespace.  (Defined by structural recursion so the kernel can
evaluate it; `String.trim` of the core library is extensionally the
same on the ASCII strings this component handles.) -/
def jsTrim (s : String) : String :=
  String.mk (dropLeadingWs (dropLeadingWs s.data.reverse).reverse)

/-- The Avatar message built by the transcription handler for a final
chunk (part_000 lines 77-85). -/
def avatarMessage (segmentId : String) (text : String) (now : Nat) : Message :=
  { sender := "Avatar"
    text := jsTrim text
    timestamp := now
    key := segmentId ++ "-" ++ toString now }

/-- The `lk.transcription` text-stream handler (part_000 lines 70-93,
identical in part_001 lines 64-88): on a final chunk with non-empty
trimmed text, append an Avatar message and clear `isAvatarSpeaking`;
on a non-final chunk, set `isAvatarSpeaking`; otherwise do nothing. -/
def onTranscriptionChunk (st : AppState) (segmentId : String)
    (isFinal : Bool) (text : String) (now : Nat) : AppState :=
  if isFinal = true ∧ jsTrim text ≠ "" then
    { st with
        messages := st.messages ++ [avatarMessage segmentId text now]
        isAvatarSpeaking := false }
  else if isFinal = false then
    { st with isAvatarSpeaking := true }
  else
    st

/-- The System message appended by `stopVoiceMode` (part_000 lines
185-193).  The text reproduces the literal bytes of the source. -/
def voiceDisabledMessage (now : Nat) : Message :=
  { sender := "System", text := "ðŸ”‡ Voice mode disabled.", timestamp := now
    key := toString now }

/-- The System message appended by `enableVoiceMode` (part_000 lines
153-161). -/
def voiceEnabledMessage (now : Nat) : Message :=
  { sender := "System"
    text := "ðŸŽ¤ Voice mode enabled. Speak naturally - Jane will respond!"
    timestamp := now, key := toString now }

/-- The System message appended by `startRecording` (part_000 lines
240-248). -/
def recordingMessage (now : Nat) : Message :=
  { sender := "System", text := "ðŸŽ¤ Recording... Release button when done"
    timestamp := now, key := toString now }

/-- The User message appended by `sendAudioMessage` on success (part_000
lines 276-284). -/
def voiceUserMessage (now : Nat) : Message :=
  { sender := "You", text := "ðŸŽ¤ [Voice message]", timestamp := now
    key := "user-audio-" ++ toString now }

/-- The System message appended by the `RoomEvent.Disconnected` handler
(part_000 lines 98-106). -/
def disconnectedMessage (now : Nat) : Message :=
  { sender := "System"
    text := "Disconnected from avatar. Please restart the conversation."
    timestamp := now, key := toString now }

/-- The System message appended by the `RoomEvent.Error` handler
(part_000 lines 110-118). -/
def errorMessage (emsg : String) (now : Nat) : Message :=
  { sender := "System", text := "Error: " ++ emsg, timestamp := now
    key := toString now }

/-- The optimistic User message appended by `handleSend` (part_000 lines
299-307). -/
def userMessage (text : String) (now : Nat) : Message :=
  { sender := "You", text := text, timestamp := now
    key := "user-" ++ toString now }

/-- The System message appended by `handleSend` when `sendText` fails
(part_000 lines 320-328). -/
def sendFailedMessage (now : Nat) : Message :=
  { sender := "System", text := "Failed to send message. Please try again."
    timestamp := now, key := "error-" ++ toString now }

/-- A transcription chunk as delivered on the `lk.transcription` topic. -/
structure Chunk where
  segmentId : String
  isFinal : Bool
  text : String
  deriving DecidableEq, Repr

/-- Process a sequence of transcription chunks, each with its arrival
time, through the handler in delivery order. -/
def processChunks (st : AppState) : List (Chunk × Nat) → AppState
  | [] => st
  | (c, now) :: rest =>
      processChunks (onTranscriptionChunk st c.segmentId c.isFinal c.text now) rest

/-- `stopVoiceMode` (part_000 lines 170-194): stop and drop the local
audio track if held, unpublish the microphone track from the room, clear
the voice-mode flag, and append the "Voice mode disabled." System
message.  Every step is unconditional except the track stop (a null
check); in particular the message append happens on every call. -/
def stopVoiceMode (st : AppState) (now : Nat) : AppState :=
  { st with
      micHeldVoice := false
      isVoiceModeEnabled := false
      messages := st.messages ++ [voiceDisabledMessage now] }

/-- `enableVoiceMode` (part_000 lines 132-167).  `micGranted` models the
`getUserMedia` + `publishTrack` awaits succeeding; when either throws,
the catch only logs and alerts, leaving the state unchanged. -/
def enableVoiceMode (st : AppState) (micGranted : Bool) (now : Nat) : AppState :=
  if micGranted then
    { st with
        micHeldVoice := true
        isVoiceModeEnabled := true
        messages := st.messages ++ [voiceEnabledMessage now] }
  else
    st

/-- `startRecording` (part_000 lines 197-254).  `micGranted` models the
`getUserMedia` await succeeding; on failure the catch only logs and
alerts.  On success a fresh `MediaRecorder` is installed (overwriting
`mediaRecorderRef`), recording starts, and a System message is
appended — with no guard against already being in either capture mode. -/
def startRecording (st : AppState) (micGranted : Bool) (now : Nat) : AppState :=
  if micGranted then
    { st with
        recorderActive := true
        isRecording := true
        messages := st.messages ++ [recordingMessage now] }
  else
    st

/-- `stopRecording` (part_000 lines 257-263): guarded by
`mediaRecorderRef.current && isRecording`; otherwise does nothing.  (The
recorder's async `onstop` later feeds `sendAudioMessage`, modelled as a
separate event.) -/
def stopRecording (st : AppState) : AppState :=
  if st.recorderActive = true ∧ st.isRecording = true then
    { st with recorderActive := false, isRecording := false }
  else
    st

/-- `sendAudioMessage` (part_000 lines 266-291).  `sendOk` models the
`sendText` await: only on success is the local "[Voice message]" User
message appended; the catch clears the loading flag and logs to the
console only. -/
def sendAudioMessage (st : AppState) (sendOk : Bool) (now : Nat) : AppState :=
  if sendOk then
    { st with
        isLoading := false
        messages := st.messages ++ [voiceUserMessage now] }
  else
    { st with isLoading := false }

/-- `handleSend` (part_000 lines 294-330): rejects blank input, a null
room, or an in-flight send; otherwise optimistically appends the User
message, clears the input, transmits, and on failure appends the
"Failed to send" System message without rolling the User message back. -/
def handleSend (st : AppState) (sendOk : Bool) (now : Nat) : AppState :=
  if jsTrim st.input = "" ∨ st.roomOpen = false ∨ st.isLoading = true then
    st
  else
    let st1 := { st with
        messages := st.messages ++ [userMessage (jsTrim st.input) now]
        input := ""
        isLoading := true }
    if sendOk then
      { st1 with isLoading := false }
    else
      { st1 with
          isLoading := false
          messages := st1.messages ++ [sendFailedMessage now] }

/-- `disconnect` (part_000 lines 339-346): when a room is open, run
`stopVoiceMode`, disconnect and null the room ref, and clear
`isConnected`; a no-op otherwise. -/
def disconnect (st : AppState) (now : Nat) : AppState :=
  if st.roomOpen then
    let st1 := stopVoiceMode st now
    { st1 with roomOpen := false, isConnected := false }
  else
    st

/-- The `RoomEvent.Connected` handler (part_000 lines 53-56): sets
`isConnected` and clears the loading flag, with no epoch or room-ref
guard of any kind. -/
def onRoomConnected (st : AppState) : AppState :=
  { st with isConnected := true, isLoading := false }

/-- The `RoomEvent.Disconnected` handler (part_000 lines 95-107): clears
`isConnected`, runs `stopVoiceMode`, then appends the "Disconnected from
avatar" System message. -/
def onRoomDisconnected (st : AppState) (now : Nat) : AppState :=
  let st1 := stopVoiceMode { st with isConnected := false } now
  { st1 with messages := st1.messages ++ [disconnectedMessage now] }

/-- The `RoomEvent.Error` handler (part_000 lines 109-119): appends an
"Error: ..." System message; no other state change. -/
def onRoomError (st : AppState) (emsg : String) (now : Nat) : AppState :=
  { st with messages := st.messages ++ [errorMessage emsg now] }

/-- The session-provisioning response of `createSession`
(src/src/utils/api.js): `{ livekitUrl, livekitToken }`, either field
possibly absent. -/
structure SessionResponse where
  livekitUrl : Option String
  livekitToken : Option String
  deriving DecidableEq, Repr

/-- JavaScript falsiness of an optional string field: absent (`none`,
i.e. `undefined`) or the empty string. -/
def falsy : Option String → Bool
  | none => true
  | some s => s = ""

/-- Outcome of the synchronous prefix of `startAvatar`:
the resulting state, the `alert` text if the catch branch ran, and
whether `room.connect` was reached. -/
structure StartOutcome where
  state : AppState
  alert : Option String
  transportConnectCalled : Bool
  deriving DecidableEq, Repr

/-- `startAvatar` (part_000 lines 40-129) up to the `room.connect`
await: set the loading flag, request credentials (`res` models the
awaited response), and throw `"Missing LiveKit credentials"` — caught at
lines 125-128, which clears loading and alerts — if either credential is
falsy; otherwise create the room, register the handlers, and initiate
the transport connection. -/
def startAvatar (st : AppState) (res : SessionResponse) : StartOutcome :=
  let st1 := { st with isLoading := true }
  if falsy res.livekitUrl || falsy res.livekitToken then
    { state := { st1 with isLoading := false }
      alert := some "Failed to start: Missing LiveKit credentials"
      transportConnectCalled := false }
  else
    { state := { st1 with roomOpen := true }
      alert := none
      transportConnectCalled := true }

/-- A connected state with an open room and an empty log, used as a
concrete test state. -/
def connectedState : AppState :=
  { initialState with isConnected := true, roomOpen := true }

/-- A connected state in which push-to-talk recording is active, used as
a concrete test state. -/
def recordingState : AppState :=
  { connectedState with isRecording := true, recorderActive := true }

/-- C2: final chunk with non-empty trimmed text appends exactly the one
Avatar message and clears the speaking indicator; non-final chunk sets
the indicator and appends nothing. -/
theorem transcription_chunk_handling (st : AppState) (segmentId : String)
    (text : String) (now : Nat) (h : jsTrim text ≠ "") :
    onTranscriptionChunk st segmentId true text now =
      { st with
          messages := st.messages ++ [avatarMessage segmentId text now]
          isAvatarSpeaking := false } ∧
    ∀ (st' : AppState) (seg' txt' : String) (n' : Nat),
      onTranscriptionChunk st' seg' false txt' n' =
        { st' with isAvatarSpeaking := true } := by
  constructor
  · simp [onTranscriptionChunk, h]
  · intro st' seg' txt' n'
    simp [onTranscriptionChunk]

/-- Witness for C2 at a concrete chunk. -/
theorem transcription_chunk_handling_witness :
    onTranscriptionChunk initialState "s1" true " Hello " 7 =
      { initialState with
          messages := [avatarMessage "s1" " Hello " 7]
          isAvatarSpeaking := false } ∧
    ∀ (st' : AppState) (seg' txt' : String) (n' : Nat),
      onTranscriptionChunk st' seg' false txt' n' =
        { st' with isAvatarSpeaking := true } := by
  have h := transcription_chunk_handling initialState "s1" " Hello " 7 (by decide)
  simpa [initialState] using h

/-- C1 counterexample: the handler keeps no record of finalized segment
ids, so two duplicate final chunks with the same `segmentId` append two
Avatar messages — the claimed "at most one Avatar Message per segmentId"
is false. -/
theorem transcription_dedup_counterexample :
    ¬ (((processChunks initialState
          [(⟨"s1", true, "Hello"⟩, 1), (⟨"s1", true, "Hello"⟩, 2)]).messages.filter
            (fun m => m.sender = "Avatar")).length ≤ 1) := by
  decide

/-- C1 amended: there is no dedup — every final chunk with non-empty
trimmed text appends one more Avatar message, so a duplicate final chunk
for the same segment appends a second one (messages grow by two). -/
theorem transcription_no_dedup (st : AppState) (segmentId : String)
    (text : String) (n1 n2 : Nat) (h : jsTrim text ≠ "") :
    (onTranscriptionChunk
        (onTranscriptionChunk st segmentId true text n1)
        segmentId true text n2).messages =
      st.messages ++ [avatarMessage segmentId text n1, avatarMessage segmentId text n2] := by
  simp [onTranscriptionChunk, h]

/-- Witness for the amended C1 at a concrete duplicated chunk. -/
theorem transcription_no_dedup_witness :
    (onTranscriptionChunk
        (onTranscriptionChunk initialState "s1" true "Hello" 1)
        "s1" true "Hello" 2).messages =
      [avatarMessage "s1" "Hello" 1, avatarMessage "s1" "Hello" 2] := by
  have h := transcription_no_dedup initialState "s1" "Hello" 1 2 (by decide)
  simpa [initialState] using h

/-- C10: a final chunk whose text trims to empty takes neither branch of
the handler: no message is appended and the speaking indicator keeps its
value — in particular it stays `true` if a prior non-final chunk set it. -/
theorem empty_final_chunk_noop (st : AppState) (segmentId : String)
    (text : String) (now : Nat) (h : jsTrim text = "") :
    onTranscriptionChunk st segmentId true text now = st ∧
    (onTranscriptionChunk
        (onTranscriptionChunk st segmentId false "He" now)
        segmentId true text now).isAvatarSpeaking = true := by
  have hstep : onTranscriptionChunk st segmentId true text now = st := by
    simp [onTranscriptionChunk, h]
  refine ⟨hstep, ?_⟩
  have hnonfinal : onTranscriptionChunk st segmentId false "He" now =
      { st with isAvatarSpeaking := true } := by
    simp [onTranscriptionChunk]
  rw [hnonfinal]
  simp [onTranscriptionChunk, h]

/-- Witness for C10 at a concrete whitespace-only final chunk. -/
theorem empty_final_chunk_noop_witness :
    onTranscriptionChunk initialState "s1" true "   " 3 = initialState ∧
    (onTranscriptionChunk
        (onTranscriptionChunk initialState "s1" false "He" 3)
        "s1" true "   " 3).isAvatarSpeaking = true := by
  exact empty_final_chunk_noop initialState "s1" "   " 3 (by decide)

/-- C3: when the session response is missing (or has an empty)
connection URL or token, `startAvatar` fails with the credentials error
before `room.connect` is ever reached, the state afterwards is `Idle`,
and the message log is untouched. -/
theorem connect_missing_credentials (st : AppState) (res : SessionResponse)
    (hcred : falsy res.livekitUrl = true ∨ falsy res.livekitToken = true)
    (hconn : st.isConnected = false) (hroom : st.roomOpen = false) :
    (startAvatar st res).alert = some "Failed to start: Missing LiveKit credentials" ∧
    (startAvatar st res).transportConnectCalled = false ∧
    connectionState (startAvatar st res).state = ConnState.Idle ∧
    (startAvatar st res).state.messages = st.messages := by
  rcases hcred with h | h <;>
    simp [startAvatar, connectionState, h, hconn, hroom]

/-- Witness for C3 at a response missing the token. -/
theorem connect_missing_credentials_witness :
    (startAvatar initialState ⟨some "wss://example", none⟩).alert =
        some "Failed to start: Missing LiveKit credentials" ∧
    (startAvatar initialState ⟨some "wss://example", none⟩).transportConnectCalled = false ∧
    connectionState (startAvatar initialState ⟨some "wss://example", none⟩).state =
        ConnState.Idle ∧
    (startAvatar initialState ⟨some "wss://example", none⟩).state.messages =
        initialState.messages := by
  exact connect_missing_credentials initialState ⟨some "wss://example", none⟩
    (Or.inr rfl) rfl rfl

/-- C4 counterexample: calling `enableVoiceMode` while push-to-talk
recording is active is not rejected — the microphone is acquired, voice
mode turns on, and afterwards both `isRecording` and
`isVoiceModeEnabled` are true, violating the claimed invariant. -/
theorem capture_exclusion_counterexample :
    (enableVoiceMode recordingState true 5).isVoiceModeEnabled = true ∧
    (enableVoiceMode recordingState true 5).isRecording = true := by
  decide

/-- C4 amended: neither capture entry point checks the other mode.
`enableVoiceMode` (mic granted) always enables voice mode and leaves
`isRecording` as it was, and `startRecording` (mic granted) always
starts recording and leaves `isVoiceModeEnabled` as it was; mutual
exclusion is only partially imposed by the UI, which disables the
push-to-talk button while voice mode is on. -/
theorem capture_no_mutual_exclusion (st : AppState) (now : Nat) :
    (enableVoiceMode st true now).isVoiceModeEnabled = true ∧
    (enableVoiceMode st true now).isRecording = st.isRecording ∧
    (startRecording st true now).isRecording = true ∧
    (startRecording st true now).isVoiceModeEnabled = st.isVoiceModeEnabled := by
  simp [enableVoiceMode, startRecording]

/-- C5 counterexample: a failed voice transmission appends nothing — the
log is exactly as before (here: still empty), so no System Message is
logged on the voice path. -/
theorem send_failure_counterexample :
    (sendAudioMessage connectedState false 9).messages = [] := by
  decide

/-- C5 amended: on the text path a failed send appends the System
failure message and keeps the optimistic User message; on the voice
path a failed send appends no message at all (and the "[Voice message]"
User message is only appended after a successful transmission, so it is
not optimistic). -/
theorem send_failure_handling (st : AppState) (now : Nat)
    (h1 : jsTrim st.input ≠ "") (h2 : st.roomOpen = true)
    (h3 : st.isLoading = false) :
    (handleSend st false now).messages =
      st.messages ++ [userMessage (jsTrim st.input) now, sendFailedMessage now] ∧
    ∀ (st' : AppState) (n' : Nat),
      (sendAudioMessage st' false n').messages = st'.messages := by
  constructor
  · simp [handleSend, h1, h2, h3]
  · intro st' n'
    simp [sendAudioMessage]

/-- Witness for the amended C5 at a concrete pending message. -/
theorem send_failure_handling_witness :
    (handleSend { connectedState with input := "Hi" } false 4).messages =
      connectedState.messages ++ [userMessage "Hi" 4, sendFailedMessage 4] ∧
    ∀ (st' : AppState) (n' : Nat),
      (sendAudioMessage st' false n').messages = st'.messages := by
  have h := send_failure_handling { connectedState with input := "Hi" } 4
    (by decide) rfl rfl
  simpa [connectedState, initialState] using h

/-- C6 counterexample: after an explicit `disconnect()`, a late
`Connected` event is not ignored — the handler sets `isConnected` back
to true, so the derived connection state is `Connected` again. -/
theorem late_connected_counterexample :
    connectionState (onRoomConnected (disconnect connectedState 1)) =
      ConnState.Connected := by
  decide

/-- C6 amended: there is no epoch tagging — the `Connected` handler
unconditionally sets `isConnected := true` and clears the loading flag,
so applied after any `disconnect()` it moves the state back to
`Connected`. -/
theorem late_connected_not_ignored (st : AppState) (now : Nat) :
    onRoomConnected st = { st with isConnected := true, isLoading := false } ∧
    connectionState (onRoomConnected (disconnect st now)) = ConnState.Connected := by
  constructor
  · rfl
  · simp [connectionState, onRoomConnected]

/-- C7 counterexample: calling `startRecording` while already recording
is not a no-op — a second "Recording..." System message is appended (a
fresh recorder also replaces the current one). -/
theorem recording_guard_counterexample :
    (startRecording recordingState true 7).messages ≠ recordingState.messages := by
  decide

/-- C7 amended: `stopRecording` while not recording is a no-op, but
`startRecording` has no already-recording guard: whenever the microphone
is granted it installs a fresh recorder, sets `isRecording`, and appends
another "Recording..." System message, even if recording was already
active. -/
theorem recording_guards (st : AppState)
    (hnotrec : st.isRecording = false) :
    stopRecording st = st ∧
    ∀ (st' : AppState) (n' : Nat),
      (startRecording st' true n').messages = st'.messages ++ [recordingMessage n'] ∧
      (startRecording st' true n').isRecording = true ∧
      (startRecording st' true n').recorderActive = true := by
  constructor
  · simp [stopRecording, hnotrec]
  · intro st' n'
    simp [startRecording]

/-- Witness for the amended C7 at a concrete non-recording state. -/
theorem recording_guards_witness :
    stopRecording connectedState = connectedState ∧
    ∀ (st' : AppState) (n' : Nat),
      (startRecording st' true n').messages = st'.messages ++ [recordingMessage n'] ∧
      (startRecording st' true n').isRecording = true ∧
      (startRecording st' true n').recorderActive = true := by
  exact recording_guards connectedState rfl

/-- C8 counterexample: message keys are not unique — two transport
`Error` events arriving in the same millisecond both use the raw
timestamp as their key, so the log holds two distinct messages with
equal keys. -/
theorem message_key_counterexample :
    ¬ ((onRoomError (onRoomError connectedState "a" 5) "b" 5).messages.map
        Message.key).Nodup := by
  decide

/-- C8 amended: the log is append-only — every message-producing
operation of the component extends the previous log as a prefix (so
insertion order is chronological and nothing is mutated or deleted) —
but id (key) uniqueness is not guaranteed, since keys are derived from
millisecond timestamps. -/
theorem message_log_append_only (st : AppState) (seg txt emsg : String)
    (b ok mic : Bool) (now : Nat) (res : SessionResponse) :
    (∃ t, (onTranscriptionChunk st seg b txt now).messages = st.messages ++ t) ∧
    (∃ t, (onRoomDisconnected st now).messages = st.messages ++ t) ∧
    (∃ t, (onRoomError st emsg now).messages = st.messages ++ t) ∧
    (∃ t, (onRoomConnected st).messages = st.messages ++ t) ∧
    (∃ t, (stopVoiceMode st now).messages = st.messages ++ t) ∧
    (∃ t, (enableVoiceMode st mic now).messages = st.messages ++ t) ∧
    (∃ t, (startRecording st mic now).messages = st.messages ++ t) ∧
    (∃ t, (stopRecording st).messages = st.messages ++ t) ∧
    (∃ t, (sendAudioMessage st ok now).messages = st.messages ++ t) ∧
    (∃ t, (handleSend st ok now).messages = st.messages ++ t) ∧
    (∃ t, (disconnect st now).messages = st.messages ++ t) ∧
    (∃ t, (startAvatar st res).state.messages = st.messages ++ t) := by
  refine ⟨?_, ?_, ?_, ?_, ?_, ?_, ?_, ?_, ?_, ?_, ?_, ?_⟩
  · unfold onTranscriptionChunk
    split
    · exact ⟨_, rfl⟩
    · split <;> exact ⟨[], by simp⟩
  · exact ⟨[voiceDisabledMessage now, disconnectedMessage now],
      by simp [onRoomDisconnected, stopVoiceMode]⟩
  · exact ⟨_, rfl⟩
  · exact ⟨[], by simp [onRoomConnected]⟩
  · exact ⟨_, rfl⟩
  · unfold enableVoiceMode
    split
    · exact ⟨_, rfl⟩
    · exact ⟨[], by simp⟩
  · unfold startRecording
    split
    · exact ⟨_, rfl⟩
    · exact ⟨[], by simp⟩
  · unfold stopRecording
    split <;> exact ⟨[], by simp⟩
  · unfold sendAudioMessage
    split
    · exact ⟨_, rfl⟩
    · exact ⟨[], by simp⟩
  · unfold handleSend
    split
    · exact ⟨[], by simp⟩
    · split
      · exact ⟨_, rfl⟩
      · exact ⟨[userMessage (jsTrim st.input) now, sendFailedMessage now], by simp⟩
  · unfold disconnect
    split
    · exact ⟨[voiceDisabledMessage now], by simp [stopVoiceMode]⟩
    · exact ⟨[], by simp⟩
  · unfold startAvatar
    split <;> exact ⟨[], by simp⟩

/-- C9: `stopVoiceMode` appends the "Voice mode disabled." System
message on every call, even from a state where voice mode was never
enabled; consequently every `disconnect()` with an open room appends it,
and every transport `Disconnected` event appends it (followed by the
"Disconnected from avatar" message). -/
theorem stop_voice_mode_always_appends (st : AppState) (now : Nat) :
    (stopVoiceMode st now).messages = st.messages ++ [voiceDisabledMessage now] ∧
    (stopVoiceMode { st with isVoiceModeEnabled := false } now).messages =
      st.messages ++ [voiceDisabledMessage now] ∧
    (disconnect { st with roomOpen := true } now).messages =
      st.messages ++ [voiceDisabledMessage now] ∧
    (onRoomDisconnected st now).messages =
      st.messages ++ [voiceDisabledMessage now, disconnectedMessage now] := by
  refine ⟨rfl, rfl, ?_, ?_⟩
  · simp [disconnect, stopVoiceMode]
  · simp [onRoomDisconnected, stopVoiceMode]

end AvatarChat
